import Mathlib

/-
Verification of the chat-proxy server (src/server.js) against its
natural-language specification.

The server is a stateless request-translation proxy.  Its core is three
pieces of `src/server.js`:

  * `formatMessagesForProvider(provider, messages)` — per-provider body
    adaptation (lines 20-53);
  * `extractResponseText(provider, data)` — per-provider response-field
    extraction with a try/catch fallback (lines 56-87);
  * the `POST /api/chat` handler — validation, endpoint/header selection,
    one outbound call, and error normalization (lines 90-204).

The JavaScript is shallowly embedded: JSON values become the `Json`
inductive type; JS truthiness, `||` fallback, optional chaining `?.`,
and the TypeError raised by a property access on `null` are modelled
explicitly; the handler becomes a pure function from the inbound request
fields and the outcome of the single outbound call to the HTTP response
it sends, paired with a trace of the outbound call it made (if any).
-/

/-- A JSON value, as produced by `express.json` body parsing or
`response.json()`.  Numbers are modelled as rationals (floating-point
rounding plays no role in any claim). -/
inductive Json where
  | null : Json
  | bool (b : Bool) : Json
  | num (q : Rat) : Json
  | str (s : String) : Json
  | arr (xs : List Json) : Json
  | obj (kvs : List (String × Json)) : Json

/-- JS truthiness of a JSON value: `null`, `false`, `0` and `""` are
falsy; every array and object is truthy. -/
def Json.truthy : Json → Bool
  | Json.null => false
  | Json.bool b => b
  | Json.num q => q != 0
  | Json.str s => s != ""
  | Json.arr _ => true
  | Json.obj _ => true

/-- Is this JSON value a string? -/
def Json.isStr : Json → Bool
  | Json.str _ => true
  | _ => false

/-- Is this JSON value `null`? -/
def Json.isNull : Json → Bool
  | Json.null => true
  | _ => false

/-- Truthiness of a possibly-absent (`undefined`) value: `undefined` is
falsy. -/
def optTruthy : Option Json → Bool
  | none => false
  | some v => v.truthy

/-- Property access `v.k` on a value known not to be `null`/`undefined`
(or reached through optional chaining): objects look the key up, every
other value yields `undefined`. -/
def getOwn : Json → String → Option Json
  | Json.obj kvs, k => kvs.lookup k
  | _, _ => none

/-- Unguarded property access `v.k` as an effectful operation: accessing
a property of `null` raises a TypeError (modelled as `Except.error` with
the engine's message), every other value yields its property (or
`undefined`). -/
def jsGetField : Json → String → Except String (Option Json)
  | Json.null, _ => Except.error "Cannot read properties of null"
  | Json.obj kvs, k => Except.ok (kvs.lookup k)
  | _, _ => Except.ok none

/-- Optional-chained property access `v?.k`: short-circuits to
`undefined` on `undefined`/`null`, otherwise an ordinary access. -/
def chainField : Option Json → String → Option Json
  | some (Json.obj kvs), k => kvs.lookup k
  | _, _ => none

/-- Optional-chained index access `v?.[i]`: arrays index positionally,
objects look up the decimal key, strings index their characters
(modelled on code points), everything else yields `undefined`. -/
def chainIdx : Option Json → Nat → Option Json
  | some (Json.arr xs), i => xs[i]?
  | some (Json.obj kvs), i => kvs.lookup (toString i)
  | some (Json.str s), i => (s.toList[i]?).map (fun c => Json.str (String.singleton c))
  | _, _ => none

/-- JS `a || b` where `a` is a possibly-`undefined` value: yields `a`
when truthy, else the fallback `b`. -/
def jsOr (v : Option Json) (d : Json) : Json :=
  match v with
  | some x => if x.truthy then x else d
  | none => d

/-- JS strict equality `v === lit` between a possibly-`undefined` value
and a string literal. -/
def strictEqStr : Option Json → String → Bool
  | some (Json.str s), t => s == t
  | _, _ => false

/-- Serialization of a JSON number (JS engine digit formatting is
modelled: integers print exactly; non-integers print as a fraction). -/
def numToString (q : Rat) : String :=
  if q.den = 1 then toString q.num else toString q.num ++ "/" ++ toString q.den

/-- A JSON string literal with its quotes (quote and backslash escaped;
control-character escapes are not modelled, no claim depends on them). -/
def quoteJsonChar (c : Char) : String :=
  if c = '"' then "\\\"" else if c = '\\' then "\\\\" else String.singleton c

/-- Quote a string as a JSON string literal. -/
def quoteJsonString (s : String) : String :=
  "\"" ++ String.join (s.toList.map quoteJsonChar) ++ "\""

mutual

/-- `JSON.stringify` on a parsed JSON value. -/
def Json.stringify : Json → String
  | Json.null => "null"
  | Json.bool true => "true"
  | Json.bool false => "false"
  | Json.num q => numToString q
  | Json.str s => quoteJsonString s
  | Json.arr xs => "[" ++ Json.stringifyList xs ++ "]"
  | Json.obj kvs => "\x7b" ++ Json.stringifyObj kvs ++ "\x7d"

/-- Comma-joined serialization of an array's elements. -/
def Json.stringifyList : List Json → String
  | [] => ""
  | [x] => Json.stringify x
  | x :: y :: rest => Json.stringify x ++ "," ++ Json.stringifyList (y :: rest)

/-- Comma-joined serialization of an object's key/value pairs. -/
def Json.stringifyObj : List (String × Json) → String
  | [] => ""
  | [(k, v)] => quoteJsonString k ++ ":" ++ Json.stringify v
  | (k, v) :: y :: rest =>
      quoteJsonString k ++ ":" ++ Json.stringify v ++ "," ++ Json.stringifyObj (y :: rest)

end

mutual

/-- JS template-literal string conversion `${v}` of a JSON value:
strings pass through, arrays join their elements with commas (null
elements convert to the empty string), objects convert to the fixed
object tag. -/
def jsToString : Json → String
  | Json.null => "null"
  | Json.bool true => "true"
  | Json.bool false => "false"
  | Json.num q => numToString q
  | Json.str s => s
  | Json.arr xs => jsToStringArr xs
  | Json.obj _ => "[object Object]"

/-- Array-to-string conversion: elements joined with commas, `null`
elements becoming empty. -/
def jsToStringArr : List Json → String
  | [] => ""
  | [Json.null] => ""
  | [x] => jsToString x
  | Json.null :: y :: rest => "," ++ jsToStringArr (y :: rest)
  | x :: y :: rest => jsToString x ++ "," ++ jsToStringArr (y :: rest)

end

/-- Template conversion of a possibly-absent value (`undefined` prints
as the literal `undefined`). -/
def jsToStringOpt : Option Json → String
  | none => "undefined"
  | some v => jsToString v

/-- A chat message as the spec's data model presents it: a role and a
content string. `Msg.toJson` is its JSON form as it arrives in the
request body. -/
structure Msg where
  role : String
  content : String
deriving DecidableEq

/-- The JSON object form of a chat message. -/
def Msg.toJson (m : Msg) : Json :=
  Json.obj [("role", Json.str m.role), ("content", Json.str m.content)]

/-- The fields destructured from `req.body` in the handler
(`const {provider, apiKey, model, messages, customEndpoint} = req.body`):
each is `none` when absent from the inbound JSON object and otherwise
carries an arbitrary JSON value. -/
structure ChatReq where
  provider : Option Json
  apiKey : Option Json
  model : Option Json
  messages : Option Json
  customEndpoint : Option Json

/-- The outbound call the handler makes via `fetch`: target URL, header
list (in insertion order) and JSON body (always sent with method POST). -/
structure OutboundCall where
  url : String
  headers : List (String × String)
  body : Json

/-- The HTTP response the handler sends back: status code and JSON body. -/
structure HttpResult where
  status : Nat
  body : Json

/-- The outcome of the single outbound `fetch` + `.json()` step:
either a status with a parsed JSON body, or a raised exception
(network failure or JSON decode failure), carried as its message. -/
inductive FetchOutcome where
  | success (status : Nat) (body : Json)
  | failure (msg : String)

/-- The `{success:false, error:e}` response body (error an arbitrary
JSON value, as the code can put a non-string there). -/
def errBodyJ (e : Json) : Json :=
  Json.obj [("success", Json.bool false), ("error", e)]

/-- The `{success:false, error:"..."}` response body with a string
error. -/
def errBody (s : String) : Json :=
  errBodyJ (Json.str s)

/-- The `{success:true, response:t}` response body. -/
def okBody (t : Json) : Json :=
  Json.obj [("success", Json.bool true), ("response", t)]

/-- The handler's catch block (lines 197-203): status 500 and
`error.message || "Internal server error"`. -/
def catchResult (e : String) : HttpResult :=
  ⟨500, errBody (if e = "" then "Internal server error" else e)⟩

/-- One adapted message of the gemini `contents` array
(lines 25-28): role mapped by `msg.role === "assistant"`, content
wrapped under `parts[0].text` (a property whose value is `undefined`
is dropped, as `JSON.stringify` drops it). -/
def geminiMsg (roleOpt : Option Json) (contentOpt : Option Json) : Json :=
  Json.obj [("role", Json.str (if strictEqStr roleOpt "assistant" then "model" else "user")),
            ("parts", Json.arr [Json.obj (match contentOpt with
               | some v => [("text", v)]
               | none => [])])]

/-- `messages.map(msg => ({role: ..., parts: ...}))` for gemini:
each element's `role` and `content` are accessed in order, so a `null`
element raises. -/
def geminiContents : List Json → Except String (List Json)
  | [] => Except.ok []
  | m :: rest =>
      match jsGetField m "role" with
      | Except.error e => Except.error e
      | Except.ok r =>
          match jsGetField m "content" with
          | Except.error e => Except.error e
          | Except.ok c =>
              match geminiContents rest with
              | Except.error e => Except.error e
              | Except.ok tail => Except.ok (geminiMsg r c :: tail)

/-- `messages.find(m => m.role === "system")` (line 41): the first
element whose `role` is the string `"system"`; stops at the first match,
raising if it reaches a `null` element first. -/
def findSystem : List Json → Except String (Option Json)
  | [] => Except.ok none
  | m :: rest =>
      match jsGetField m "role" with
      | Except.error e => Except.error e
      | Except.ok r => if strictEqStr r "system" then Except.ok (some m) else findSystem rest

/-- `messages.filter(m => m.role !== "system")` (line 42): every element
whose `role` is not the string `"system"`, in order. -/
def filterNonSystem : List Json → Except String (List Json)
  | [] => Except.ok []
  | m :: rest =>
      match jsGetField m "role" with
      | Except.error e => Except.error e
      | Except.ok r =>
          match filterNonSystem rest with
          | Except.error e => Except.error e
          | Except.ok tail => Except.ok (if strictEqStr r "system" then tail else m :: tail)

/-- `formatMessagesForProvider(provider, messages)` (lines 20-53).
The `{system: systemMsg.content}` spread is conditional on the find
result; a `content` that is `undefined` is dropped (as `JSON.stringify`
drops it from the sent body). -/
def formatMessagesForProvider (provider : String) (messages : List Json) : Except String Json :=
  if provider = "gemini" then
    match geminiContents messages with
    | Except.error e => Except.error e
    | Except.ok cs => Except.ok (Json.obj [("contents", Json.arr cs)])
  else if provider = "openai" then
    Except.ok (Json.obj [("messages", Json.arr messages),
                         ("temperature", Json.num (7 / 10)),
                         ("max_tokens", Json.num 2000)])
  else if provider = "anthropic" then
    match findSystem messages with
    | Except.error e => Except.error e
    | Except.ok sys =>
        match filterNonSystem messages with
        | Except.error e => Except.error e
        | Except.ok conv =>
            Except.ok (Json.obj ([("messages", Json.arr conv), ("max_tokens", Json.num 2000)] ++
              (match sys with
               | some sm =>
                   (match getOwn sm "content" with
                    | some cv => [("system", cv)]
                    | none => [])
               | none => [])))
  else
    Except.ok (Json.obj [("messages", Json.arr messages)])

/-- The body of `extractResponseText` before its catch (lines 58-82):
the switch on the provider, each branch's first unguarded property
access raising on a `null` body, the rest optional-chained, and the
`||` fallbacks. -/
def extractTry (provider : String) (data : Json) : Except String Json :=
  if provider = "gemini" then
    match jsGetField data "candidates" with
    | Except.error e => Except.error e
    | Except.ok c =>
        Except.ok (jsOr (chainField (chainIdx (chainField (chainField (chainIdx c 0) "content") "parts") 0) "text")
                        (Json.str "No response generated"))
  else if provider = "openai" then
    match jsGetField data "choices" with
    | Except.error e => Except.error e
    | Except.ok c =>
        Except.ok (jsOr (chainField (chainField (chainIdx c 0) "message") "content")
                        (Json.str "No response generated"))
  else if provider = "anthropic" then
    match jsGetField data "content" with
    | Except.error e => Except.error e
    | Except.ok c =>
        Except.ok (jsOr (chainField (chainIdx c 0) "text")
                        (Json.str "No response generated"))
  else if provider = "custom" then
    match jsGetField data "response" with
    | Except.error e => Except.error e
    | Except.ok r =>
        Except.ok (jsOr r
          (jsOr (getOwn data "message")
            (jsOr (getOwn data "text")
              (jsOr (chainField (chainField (chainIdx (getOwn data "choices") 0) "message") "content")
                (jsOr (chainField (chainIdx (getOwn data "content") 0) "text")
                  (Json.str (Json.stringify data)))))))
  else
    Except.ok (Json.str "Unknown response format")

/-- `extractResponseText(provider, data)` (lines 56-87): the switch
wrapped in try/catch, any raised error converted to the sentinel. -/
def extractResponseText (provider : String) (data : Json) : Json :=
  match extractTry provider data with
  | Except.ok v => v
  | Except.error _ => Json.str "Error parsing response"

/-- `API_ENDPOINTS.gemini(model)` (line 14). -/
def geminiEndpoint (model : String) : String :=
  "https://generativelanguage.googleapis.com/v1beta/models/" ++ model ++ ":generateContent"

/-- `API_ENDPOINTS.openai` (line 15). -/
def openaiEndpoint : String := "https://api.openai.com/v1/chat/completions"

/-- `API_ENDPOINTS.anthropic` (line 16). -/
def anthropicEndpoint : String := "https://api.anthropic.com/v1/messages"

/-- JS `switch (provider)` case test: strict equality of the
destructured `provider` value against a string literal. -/
def provIs (p : Option Json) (s : String) : Bool :=
  strictEqStr p s

/-- Is `messages` a non-empty array
(`Array.isArray(messages) && messages.length !== 0`)? -/
def isNonEmptyArr : Option Json → Bool
  | some (Json.arr (_ :: _)) => true
  | _ => false

/-- The elements of `messages` once known to be a non-empty array. -/
def arrElems : Option Json → List Json
  | some (Json.arr xs) => xs
  | _ => []

/-- The base header object `{Content-Type: application/json}`
(lines 111-113). -/
def baseHeaders : List (String × String) :=
  [("Content-Type", "application/json")]

/-- `{model: mv, ...fm}` (lines 126-129, 136-139): the model key
prepended to the formatted body's keys (no key collision occurs). -/
def withModel (mv : Json) (fm : Json) : Json :=
  match fm with
  | Json.obj kvs => Json.obj (("model", mv) :: kvs)
  | other => other

/-- The model value `model || default` used for openai/anthropic
bodies: the raw caller value when truthy, else the hardcoded default
string. -/
def modelOrDefault (m : Option Json) (d : String) : Json :=
  match m with
  | some v => if v.truthy then v else Json.str d
  | none => Json.str d

/-- Lines 92-159 of the handler: validation, the provider switch,
endpoint/header/body construction, and the early error returns.
`Sum.inl` is a response sent without any outbound call; `Sum.inr` is
the outbound call about to be made.  A formatting exception (a `null`
message element) lands in the handler's catch, hence `catchResult`. -/
def adaptPhase (req : ChatReq) : Sum HttpResult OutboundCall :=
  if !optTruthy req.provider || !optTruthy req.apiKey || !optTruthy req.messages then
    Sum.inl ⟨400, errBody "Missing required fields: provider, apiKey, or messages"⟩
  else if !isNonEmptyArr req.messages then
    Sum.inl ⟨400, errBody "Messages must be a non-empty array"⟩
  else
    let msgs := arrElems req.messages
    if provIs req.provider "gemini" then
      let modelStr := if optTruthy req.model then jsToStringOpt req.model else "gemini-2.0-flash-exp"
      let endpoint := geminiEndpoint modelStr ++ "?key=" ++ jsToStringOpt req.apiKey
      match formatMessagesForProvider "gemini" msgs with
      | Except.error e => Sum.inl (catchResult e)
      | Except.ok body => Sum.inr ⟨endpoint, baseHeaders, body⟩
    else if provIs req.provider "openai" then
      match formatMessagesForProvider "openai" msgs with
      | Except.error e => Sum.inl (catchResult e)
      | Except.ok fm =>
          Sum.inr ⟨openaiEndpoint,
                   baseHeaders ++ [("Authorization", "Bearer " ++ jsToStringOpt req.apiKey)],
                   withModel (modelOrDefault req.model "gpt-4o-mini") fm⟩
    else if provIs req.provider "anthropic" then
      match formatMessagesForProvider "anthropic" msgs with
      | Except.error e => Sum.inl (catchResult e)
      | Except.ok fm =>
          Sum.inr ⟨anthropicEndpoint,
                   baseHeaders ++ [("x-api-key", jsToStringOpt req.apiKey),
                                   ("anthropic-version", "2023-06-01")],
                   withModel (modelOrDefault req.model "claude-3-5-sonnet-20241022") fm⟩
    else if provIs req.provider "custom" then
      if !optTruthy req.customEndpoint then
        Sum.inl ⟨400, errBody "Custom endpoint required for custom provider"⟩
      else
        match formatMessagesForProvider "custom" msgs with
        | Except.error e => Sum.inl (catchResult e)
        | Except.ok body =>
            Sum.inr ⟨jsToStringOpt req.customEndpoint,
                     baseHeaders ++ [("Authorization", "Bearer " ++ jsToStringOpt req.apiKey)],
                     body⟩
    else
      Sum.inl ⟨400, errBody ("Unsupported provider: " ++ jsToStringOpt req.provider)⟩

/-- Lines 163-203 of the handler, after the outbound call: the catch
for a fetch/decode exception, the non-2xx error-message derivation
(lines 171-186, whose `responseData.error` access raises on a `null`
body and lands in the catch), and the success path. -/
def respondPhase (provider : String) (o : FetchOutcome) : HttpResult :=
  match o with
  | FetchOutcome.failure e => catchResult e
  | FetchOutcome.success status data =>
      if 200 ≤ status ∧ status ≤ 299 then
        ⟨200, okBody (extractResponseText provider data)⟩
      else
        match jsGetField data "error" with
        | Except.error e => catchResult e
        | Except.ok eOpt =>
            let errorMessage : Json :=
              match eOpt with
              | some ev =>
                  if ev.truthy then
                    match ev with
                    | Json.str s => Json.str s
                    | _ => jsOr (getOwn ev "message") (Json.str (Json.stringify ev))
                  else Json.str "API request failed"
              | none => Json.str "API request failed"
            ⟨status, errBodyJ errorMessage⟩

/-- The provider string handed to `extractResponseText` (in every
branch that reaches the call, `provider` is one of the four provider
name strings). -/
def provName : Option Json → String
  | some (Json.str s) => s
  | _ => ""

/-- The whole `POST /api/chat` handler (lines 90-204) for one request:
given the destructured body fields and the outcome of the single
outbound call, the HTTP response sent, paired with the outbound call
made (`none` when the handler returned before calling out). -/
def handleChat (req : ChatReq) (o : FetchOutcome) : HttpResult × Option OutboundCall :=
  match adaptPhase req with
  | Sum.inl early => (early, none)
  | Sum.inr call => (respondPhase (provName req.provider) o, some call)

/-- One step of an extraction path, as the spec's §4.2 table writes
them: a named field or a numeric index. -/
inductive PathStep where
  | field (k : String)
  | idx (n : Nat)

/-- Follow one path step (with the chaining semantics of the code's
guarded accesses). -/
def stepGet (v : Option Json) : PathStep → Option Json
  | PathStep.field k => chainField v k
  | PathStep.idx n => chainIdx v n

/-- The value at a field path of a JSON body. -/
def pathGet (data : Json) (p : List PathStep) : Option Json :=
  p.foldl stepGet (some data)

/-- Modelled from the spec (§4.2, amended): try the paths in order and
take the first whose value is truthy. -/
def firstTruthyPath (data : Json) : List (List PathStep) → Option Json
  | [] => none
  | p :: ps =>
      match pathGet data p with
      | some v => if v.truthy then some v else firstTruthyPath data ps
      | none => firstTruthyPath data ps

/-- The spec's gemini extraction path. -/
def geminiPaths : List (List PathStep) :=
  [[PathStep.field "candidates", PathStep.idx 0, PathStep.field "content",
    PathStep.field "parts", PathStep.idx 0, PathStep.field "text"]]

/-- The spec's openai extraction path. -/
def openaiPaths : List (List PathStep) :=
  [[PathStep.field "choices", PathStep.idx 0, PathStep.field "message", PathStep.field "content"]]

/-- The spec's anthropic extraction path. -/
def anthropicPaths : List (List PathStep) :=
  [[PathStep.field "content", PathStep.idx 0, PathStep.field "text"]]

/-- The spec's custom extraction paths, in order. -/
def customPaths : List (List PathStep) :=
  [[PathStep.field "response"], [PathStep.field "message"], [PathStep.field "text"],
   [PathStep.field "choices", PathStep.idx 0, PathStep.field "message", PathStep.field "content"],
   [PathStep.field "content", PathStep.idx 0, PathStep.field "text"]]

/-- Modelled from the spec (§4.2 extraction table, with presence
amended to truthiness): attempt the provider's paths in order, first
truthy value wins, else the provider's fallback; unrecognized providers
get the fixed literal. -/
def extractSpec (provider : String) (data : Json) : Json :=
  if provider = "gemini" then
    jsOr (firstTruthyPath data geminiPaths) (Json.str "No response generated")
  else if provider = "openai" then
    jsOr (firstTruthyPath data openaiPaths) (Json.str "No response generated")
  else if provider = "anthropic" then
    jsOr (firstTruthyPath data anthropicPaths) (Json.str "No response generated")
  else if provider = "custom" then
    jsOr (firstTruthyPath data customPaths) (Json.str (Json.stringify data))
  else
    Json.str "Unknown response format"

/-! ### Helper lemmas -/

theorem chainField_some (d : Json) (k : String) : chainField (some d) k = getOwn d k := by
  cases d <;> rfl

theorem jsGetField_not_null (d : Json) (k : String) (h : d.isNull = false) :
    jsGetField d k = Except.ok (getOwn d k) := by
  cases d <;> simp_all [jsGetField, getOwn, Json.isNull]

theorem optTruthy_str (s : String) (h : s ≠ "") : optTruthy (some (Json.str s)) = true := by
  simp [optTruthy, Json.truthy, h]

theorem geminiContents_map (msgs : List Msg) :
    geminiContents (msgs.map Msg.toJson) =
      Except.ok (msgs.map fun m =>
        Json.obj [("role", Json.str (if m.role == "assistant" then "model" else "user")),
                  ("parts", Json.arr [Json.obj [("text", Json.str m.content)]])]) := by
  induction msgs with
  | nil => rfl
  | cons a t ih =>
      simp only [List.map_cons, geminiContents, Msg.toJson, jsGetField, List.lookup, ih]
      simp [geminiMsg, strictEqStr]

theorem findSystem_map (msgs : List Msg) :
    findSystem (msgs.map Msg.toJson) =
      Except.ok ((msgs.find? fun m => m.role == "system").map Msg.toJson) := by
  induction msgs with
  | nil => rfl
  | cons a t ih =>
      by_cases h : (a.role == "system") = true
      · simp [findSystem, Msg.toJson, jsGetField, List.lookup, strictEqStr, h, List.find?]
      · simp only [Bool.not_eq_true] at h
        simp [findSystem, Msg.toJson, jsGetField, List.lookup, strictEqStr, h, List.find?, ih]

theorem filterNonSystem_map (msgs : List Msg) :
    filterNonSystem (msgs.map Msg.toJson) =
      Except.ok ((msgs.filter fun m => m.role != "system").map Msg.toJson) := by
  induction msgs with
  | nil => rfl
  | cons a t ih =>
      by_cases h : (a.role == "system") = true
      · have h2 : a.role = "system" := by simpa using h
        simp [filterNonSystem, Msg.toJson, jsGetField, List.lookup, strictEqStr, h, h2,
              List.filter_cons, ih]
      · simp only [Bool.not_eq_true] at h
        have h2 : ¬a.role = "system" := by simpa using h
        simp [filterNonSystem, Msg.toJson, jsGetField, List.lookup, strictEqStr, h, h2,
              List.filter_cons, ih]

/-! ### Claims C1, C2, C9, C10 -/

/-- C1: for provider `gemini` with a non-empty message list, the adapted
outbound call targets `{base}/{model}:generateContent?key={apiKey}`
(model defaulting to `gemini-2.0-flash-exp` when omitted), the headers
carry no API key (the key appears only as the URL query parameter), and
the body is `{contents: [{role, parts:[{text}]}]}` with each role mapped
to `model` exactly when it was `assistant` and to `user` otherwise —
`system` included, with no special case. -/
theorem C1_gemini_adaptation (k : String) (hk : k ≠ "") (mo : Option String)
    (hmo : ∀ s, mo = some s → s ≠ "") (msgs : List Msg) (hm : msgs ≠ [])
    (ce : Option Json) (o : FetchOutcome) :
    (handleChat ⟨some (Json.str "gemini"), some (Json.str k), mo.map Json.str,
                 some (Json.arr (msgs.map Msg.toJson)), ce⟩ o).2 =
      some ⟨geminiEndpoint (mo.getD "gemini-2.0-flash-exp") ++ "?key=" ++ k,
            baseHeaders,
            Json.obj [("contents", Json.arr (msgs.map fun m =>
              Json.obj [("role", Json.str (if m.role == "assistant" then "model" else "user")),
                        ("parts", Json.arr [Json.obj [("text", Json.str m.content)]])]))]⟩ := by
  obtain ⟨a, t, rfl⟩ : ∃ a t, msgs = a :: t := by
    cases msgs with
    | nil => exact absurd rfl hm
    | cons a t => exact ⟨a, t, rfl⟩
  have hkt : optTruthy (some (Json.str k)) = true := optTruthy_str k hk
  have hfmt := geminiContents_map (a :: t)
  simp only [List.map_cons] at hfmt
  cases mo with
  | none =>
      simp [handleChat, adaptPhase, hkt, optTruthy, Json.truthy, isNonEmptyArr, provIs,
            strictEqStr, arrElems, formatMessagesForProvider, hfmt, jsToStringOpt, jsToString, hk]
  | some s =>
      have hs : s ≠ "" := hmo s rfl
      simp [handleChat, adaptPhase, hkt, optTruthy, Json.truthy, isNonEmptyArr, provIs,
            strictEqStr, arrElems, formatMessagesForProvider, hfmt, jsToStringOpt, jsToString,
            hk, hs]

/-- Witness for C1 at a concrete request: system and user roles both
map to `user`, assistant maps to `model`, default model in the URL,
key only in the query string. -/
theorem C1_gemini_adaptation_witness :
    ("KEY" : String) ≠ "" ∧ ([⟨"system", "S"⟩, ⟨"user", "U"⟩, ⟨"assistant", "A"⟩] : List Msg) ≠ [] ∧
    (handleChat ⟨some (Json.str "gemini"), some (Json.str "KEY"), none,
                 some (Json.arr (([⟨"system", "S"⟩, ⟨"user", "U"⟩, ⟨"assistant", "A"⟩] : List Msg).map Msg.toJson)), none⟩
       (FetchOutcome.success 200 Json.null)).2 =
      some ⟨"https://generativelanguage.googleapis.com/v1beta/models/gemini-2.0-flash-exp:generateContent?key=KEY",
            baseHeaders,
            Json.obj [("contents", Json.arr
              [Json.obj [("role", Json.str "user"), ("parts", Json.arr [Json.obj [("text", Json.str "S")]])],
               Json.obj [("role", Json.str "user"), ("parts", Json.arr [Json.obj [("text", Json.str "U")]])],
               Json.obj [("role", Json.str "model"), ("parts", Json.arr [Json.obj [("text", Json.str "A")]])]])]⟩ :=
  ⟨by decide, by decide,
   C1_gemini_adaptation "KEY" (by decide) none (fun s h => Option.noConfusion h)
     [⟨"system", "S"⟩, ⟨"user", "U"⟩, ⟨"assistant", "A"⟩] (by decide) none
     (FetchOutcome.success 200 Json.null)⟩

/-- C2: for provider `anthropic` the adaptation extracts the first
`system` message into a top-level `system` field, the `messages` array
is exactly the non-`system` input messages in their original order,
`max_tokens` is 2000 and the model defaults to the hardcoded value when
the caller omits it. -/
theorem C2_anthropic_adaptation (k : String) (hk : k ≠ "") (msgs : List Msg) (hm : msgs ≠ [])
    (ce : Option Json) (o : FetchOutcome) :
    (handleChat ⟨some (Json.str "anthropic"), some (Json.str k), none,
                 some (Json.arr (msgs.map Msg.toJson)), ce⟩ o).2 =
      some ⟨anthropicEndpoint,
            baseHeaders ++ [("x-api-key", k), ("anthropic-version", "2023-06-01")],
            Json.obj (("model", Json.str "claude-3-5-sonnet-20241022") ::
              ("messages", Json.arr ((msgs.filter fun m => m.role != "system").map Msg.toJson)) ::
              ("max_tokens", Json.num 2000) ::
              (match msgs.find? (fun m => m.role == "system") with
               | some sm => [("system", Json.str sm.content)]
               | none => []))⟩ := by
  obtain ⟨a, t, rfl⟩ : ∃ a t, msgs = a :: t := by
    cases msgs with
    | nil => exact absurd rfl hm
    | cons a t => exact ⟨a, t, rfl⟩
  have hkt : optTruthy (some (Json.str k)) = true := optTruthy_str k hk
  have hfind := findSystem_map (a :: t)
  have hfilt := filterNonSystem_map (a :: t)
  simp only [List.map_cons] at hfind hfilt
  cases hf : List.find? (fun m => m.role == "system") (a :: t) with
  | none =>
      rw [hf] at hfind
      simp [handleChat, adaptPhase, hkt, optTruthy, Json.truthy, isNonEmptyArr, provIs,
            strictEqStr, arrElems, formatMessagesForProvider, hfind, hfilt, jsToStringOpt,
            jsToString, hk, withModel, modelOrDefault, hf]
  | some sm =>
      rw [hf] at hfind
      have hcont : getOwn (Msg.toJson sm) "content" = some (Json.str sm.content) := rfl
      simp [handleChat, adaptPhase, hkt, optTruthy, Json.truthy, isNonEmptyArr, provIs,
            strictEqStr, arrElems, formatMessagesForProvider, hfind, hfilt, jsToStringOpt,
            jsToString, hk, withModel, modelOrDefault, hf, hcont]

/-- Witness for C2 at the spec's own example: messages
`[{role:"system",content:"S"},{role:"user",content:"U"}]` yield a body
with `system:"S"` and `messages:[{role:"user",content:"U"}]`. -/
theorem C2_anthropic_adaptation_witness :
    ("k" : String) ≠ "" ∧ ([⟨"system", "S"⟩, ⟨"user", "U"⟩] : List Msg) ≠ [] ∧
    (handleChat ⟨some (Json.str "anthropic"), some (Json.str "k"), none,
                 some (Json.arr (([⟨"system", "S"⟩, ⟨"user", "U"⟩] : List Msg).map Msg.toJson)), none⟩
       (FetchOutcome.success 200 Json.null)).2 =
      some ⟨anthropicEndpoint,
            baseHeaders ++ [("x-api-key", "k"), ("anthropic-version", "2023-06-01")],
            Json.obj [("model", Json.str "claude-3-5-sonnet-20241022"),
                      ("messages", Json.arr [Json.obj [("role", Json.str "user"), ("content", Json.str "U")]]),
                      ("max_tokens", Json.num 2000),
                      ("system", Json.str "S")]⟩ :=
  ⟨by decide, by decide,
   C2_anthropic_adaptation "k" (by decide) [⟨"system", "S"⟩, ⟨"user", "U"⟩] (by decide) none
     (FetchOutcome.success 200 Json.null)⟩

/-- C9: for provider `custom` with a truthy `customEndpoint`, the
adapted request targets the caller-supplied endpoint, authenticates via
an `Authorization: Bearer` header, and its body is exactly
`{messages: <input messages unchanged>}`; the caller-supplied `model`
value (the quantified `mo`, arbitrary) never appears. -/
theorem C9_custom_adaptation (k e : String) (hk : k ≠ "") (he : e ≠ "")
    (mo : Option Json) (msgs : List Json) (hm : msgs ≠ []) (o : FetchOutcome) :
    (handleChat ⟨some (Json.str "custom"), some (Json.str k), mo,
                 some (Json.arr msgs), some (Json.str e)⟩ o).2 =
      some ⟨e, baseHeaders ++ [("Authorization", "Bearer " ++ k)],
            Json.obj [("messages", Json.arr msgs)]⟩ := by
  obtain ⟨a, t, rfl⟩ : ∃ a t, msgs = a :: t := by
    cases msgs with
    | nil => exact absurd rfl hm
    | cons a t => exact ⟨a, t, rfl⟩
  have hkt : optTruthy (some (Json.str k)) = true := optTruthy_str k hk
  have het : optTruthy (some (Json.str e)) = true := optTruthy_str e he
  simp [handleChat, adaptPhase, hkt, het, optTruthy, Json.truthy, isNonEmptyArr, provIs,
        strictEqStr, arrElems, formatMessagesForProvider, jsToStringOpt, jsToString, hk, he]

/-- Witness for C9: a concrete custom request whose supplied model is
ignored and whose body carries the messages unchanged. -/
theorem C9_custom_adaptation_witness :
    ("k" : String) ≠ "" ∧ ("https://e.example/x" : String) ≠ "" ∧
    ([Json.obj [("role", Json.str "user"), ("content", Json.str "U")]] : List Json) ≠ [] ∧
    (handleChat ⟨some (Json.str "custom"), some (Json.str "k"), some (Json.str "ignored-model"),
                 some (Json.arr [Json.obj [("role", Json.str "user"), ("content", Json.str "U")]]),
                 some (Json.str "https://e.example/x")⟩
       (FetchOutcome.success 200 Json.null)).2 =
      some ⟨"https://e.example/x", baseHeaders ++ [("Authorization", "Bearer k")],
            Json.obj [("messages", Json.arr [Json.obj [("role", Json.str "user"), ("content", Json.str "U")]])]⟩ :=
  ⟨by decide, by decide, by simp,
   C9_custom_adaptation "k" "https://e.example/x" (by decide) (by decide)
     (some (Json.str "ignored-model"))
     [Json.obj [("role", Json.str "user"), ("content", Json.str "U")]] (by simp)
     (FetchOutcome.success 200 Json.null)⟩

/-- C10: presence validation is by truthiness — a request whose
`provider` or `apiKey` is present but the empty string is rejected with
the missing-fields error and a 400, before any outbound call, exactly
as if the field were absent. -/
theorem C10_empty_string_fields_rejected (req : ChatReq) (o : FetchOutcome)
    (h : req.provider = some (Json.str "") ∨ req.apiKey = some (Json.str "")) :
    handleChat req o =
      (⟨400, errBody "Missing required fields: provider, apiKey, or messages"⟩, none) := by
  rcases h with h | h <;>
    simp [handleChat, adaptPhase, h, optTruthy, Json.truthy]

/-- Witness for C10: an otherwise-valid request with an empty-string
provider is rejected exactly as when the field is absent. -/
theorem C10_empty_string_fields_rejected_witness :
    ((⟨some (Json.str ""), some (Json.str "k"), none,
       some (Json.arr [Json.obj [("role", Json.str "user"), ("content", Json.str "U")]]),
       none⟩ : ChatReq).provider = some (Json.str "") ∨
     (⟨some (Json.str ""), some (Json.str "k"), none,
       some (Json.arr [Json.obj [("role", Json.str "user"), ("content", Json.str "U")]]),
       none⟩ : ChatReq).apiKey = some (Json.str "")) ∧
    handleChat ⟨some (Json.str ""), some (Json.str "k"), none,
                some (Json.arr [Json.obj [("role", Json.str "user"), ("content", Json.str "U")]]),
                none⟩ (FetchOutcome.success 200 Json.null) =
      (⟨400, errBody "Missing required fields: provider, apiKey, or messages"⟩, none) :=
  ⟨Or.inl rfl,
   C10_empty_string_fields_rejected _ (FetchOutcome.success 200 Json.null) (Or.inl rfl)⟩

/-! ### Claims C3 and C4 (response extraction) -/

theorem firstTruthy_nil (data : Json) (d : Json) :
    jsOr (firstTruthyPath data []) d = d := rfl

theorem firstTruthy_cons (data : Json) (p : List PathStep) (ps : List (List PathStep)) (d : Json) :
    jsOr (firstTruthyPath data (p :: ps)) d =
      jsOr (pathGet data p) (jsOr (firstTruthyPath data ps) d) := by
  simp only [firstTruthyPath]
  cases pathGet data p with
  | none => rfl
  | some v => by_cases h : v.truthy = true <;> simp [jsOr, h]

theorem jsOr_shape (x : Option Json) (d : Json) :
    (jsOr x d).truthy = true ∨ jsOr x d = d := by
  cases x with
  | none => exact Or.inr rfl
  | some v => by_cases h : v.truthy = true <;> simp [jsOr, h]

theorem jsOr_truthy_or_isStr (x : Option Json) (d : Json)
    (hd : d.truthy = true ∨ d.isStr = true) :
    (jsOr x d).truthy = true ∨ (jsOr x d).isStr = true := by
  rcases jsOr_shape x d with h | h
  · exact Or.inl h
  · rw [h]; exact hd

/-- Every value the extraction switch returns without raising is either
truthy (a truthy field value found at a path) or a string (a sentinel
literal or the serialized body). -/
theorem extractTry_shape (provider : String) (data : Json) :
    ∀ v, extractTry provider data = Except.ok v → (v.truthy = true ∨ v.isStr = true) := by
  intro v hv
  by_cases h1 : provider = "gemini"
  · subst h1
    cases hg : jsGetField data "candidates" with
    | error e => simp [extractTry, hg] at hv
    | ok c =>
        simp [extractTry, hg] at hv
        subst hv
        exact jsOr_truthy_or_isStr _ _ (Or.inr rfl)
  by_cases h2 : provider = "openai"
  · subst h2
    cases hg : jsGetField data "choices" with
    | error e => simp [extractTry, hg] at hv
    | ok c =>
        simp [extractTry, hg] at hv
        subst hv
        exact jsOr_truthy_or_isStr _ _ (Or.inr rfl)
  by_cases h3 : provider = "anthropic"
  · subst h3
    cases hg : jsGetField data "content" with
    | error e => simp [extractTry, hg] at hv
    | ok c =>
        simp [extractTry, hg] at hv
        subst hv
        exact jsOr_truthy_or_isStr _ _ (Or.inr rfl)
  by_cases h4 : provider = "custom"
  · subst h4
    cases hg : jsGetField data "response" with
    | error e => simp [extractTry, hg] at hv
    | ok c =>
        simp [extractTry, h1, h2, h3, hg] at hv
        subst hv
        exact jsOr_truthy_or_isStr _ _ (jsOr_truthy_or_isStr _ _ (jsOr_truthy_or_isStr _ _
          (jsOr_truthy_or_isStr _ _ (jsOr_truthy_or_isStr _ _ (Or.inr rfl)))))
  · simp [extractTry, h1, h2, h3, h4] at hv
    subst hv
    exact Or.inr rfl

/-- C3 counterexample: for provider `custom` and body `{response:""}`,
the `response` path is present (its value is the empty string) but the
code skips it for being falsy and falls through to serializing the whole
body — it does not return the value at the first present path. -/
theorem C3_counterexample :
    pathGet (Json.obj [("response", Json.str "")]) [PathStep.field "response"]
        = some (Json.str "") ∧
    extractResponseText "custom" (Json.obj [("response", Json.str "")]) =
        Json.str "\x7b\"response\":\"\"\x7d" ∧
    (Json.str "\x7b\"response\":\"\"\x7d" : Json) ≠ Json.str "" := by
  refine ⟨rfl, rfl, ?_⟩
  simp

/-- C3 (amended): for every provider and every non-null body, extraction
attempts the provider's field paths in the stated order and returns the
value at the first path holding a *truthy* value (present-but-falsy
values are skipped); when no path yields a truthy value it returns the
literal fallback (`"No response generated"` for gemini/openai/anthropic,
the whole body serialized as text for custom); any unrecognized provider
identifier gets the literal `"Unknown response format"`.  (A null body
instead raises internally and is C4's concern.) -/
theorem C3_extraction_first_truthy (provider : String) (data : Json)
    (hd : data.isNull = false) :
    extractResponseText provider data = extractSpec provider data := by
  by_cases h1 : provider = "gemini"
  · subst h1
    simp [extractResponseText, extractTry, extractSpec,
          jsGetField_not_null data "candidates" hd, firstTruthy_cons, firstTruthy_nil,
          geminiPaths, pathGet, stepGet, chainField_some]
  by_cases h2 : provider = "openai"
  · subst h2
    simp [extractResponseText, extractTry, extractSpec,
          jsGetField_not_null data "choices" hd, firstTruthy_cons, firstTruthy_nil,
          openaiPaths, pathGet, stepGet, chainField_some]
  by_cases h3 : provider = "anthropic"
  · subst h3
    simp [extractResponseText, extractTry, extractSpec,
          jsGetField_not_null data "content" hd, firstTruthy_cons, firstTruthy_nil,
          anthropicPaths, pathGet, stepGet, chainField_some]
  by_cases h4 : provider = "custom"
  · subst h4
    simp [extractResponseText, extractTry, extractSpec, h1, h2, h3,
          jsGetField_not_null data "response" hd, firstTruthy_cons, firstTruthy_nil,
          customPaths, pathGet, stepGet, chainField_some]
  · simp [extractResponseText, extractTry, extractSpec, h1, h2, h3, h4]

/-- Witness for C3: a concrete custom body where the second path wins. -/
theorem C3_extraction_first_truthy_witness :
    (Json.obj [("message", Json.str "m")]).isNull = false ∧
    extractResponseText "custom" (Json.obj [("message", Json.str "m")]) =
      extractSpec "custom" (Json.obj [("message", Json.str "m")]) :=
  ⟨rfl, C3_extraction_first_truthy "custom" (Json.obj [("message", Json.str "m")]) rfl⟩

/-- C4 counterexample: extraction does not always return a string —
for provider `custom` and body `{response: 5}` it returns the number 5
unchanged. -/
theorem C4_counterexample :
    extractResponseText "custom" (Json.obj [("response", Json.num 5)]) = Json.num 5 ∧
    (Json.num 5).isStr = false :=
  ⟨rfl, rfl⟩

/-- C4 (amended): extraction never fails outward — for every provider
string and every body it yields a value; any exception raised during
field traversal (a property access on a null body) is caught and
converted to the literal `"Error parsing response"`; and every returned
value is either a string (all sentinel/fallback outputs are strings) or
the truthy value found at an extraction path, which may be a non-string
JSON value. -/
theorem C4_extraction_never_fails (provider : String) (data : Json) :
    (∀ e, extractTry provider data = Except.error e →
        extractResponseText provider data = Json.str "Error parsing response") ∧
    ((extractResponseText provider data).truthy = true ∨
     (extractResponseText provider data).isStr = true) := by
  constructor
  · intro e h
    simp [extractResponseText, h]
  · cases hx : extractTry provider data with
    | error e => simp [extractResponseText, hx, Json.isStr]
    | ok v =>
        have := extractTry_shape provider data v hx
        simpa [extractResponseText, hx] using this

/-- Witness for C4: a null gemini body raises on the first property
access and is converted to the parse-error sentinel. -/
theorem C4_extraction_never_fails_witness :
    extractResponseText "gemini" Json.null = Json.str "Error parsing response" :=
  (C4_extraction_never_fails "gemini" Json.null).1 "Cannot read properties of null" rfl

/-! ### Claims C5-C8 (dispatch handler) -/

theorem jsOr_falsy (x : Option Json) (d : Json) (h : optTruthy x = false) :
    jsOr x d = d := by
  cases x with
  | none => rfl
  | some v => simp only [optTruthy] at h; simp [jsOr, h]

/-- Whenever the handler made its outbound call, its response is the
post-call phase applied to the call's outcome. -/
theorem handleChat_after_call (req : ChatReq) (o : FetchOutcome)
    (h : (handleChat req o).2.isSome = true) :
    (handleChat req o).1 = respondPhase (provName req.provider) o := by
  cases hA : adaptPhase req with
  | inl early => simp [handleChat, hA] at h
  | inr call => simp [handleChat, hA]

/-- C5 counterexample: upstream status 404 with body `{error:""}` — the
`error` field is present and is text, but being falsy it is not used
directly; the generic fallback is returned instead. -/
theorem C5_counterexample :
    respondPhase "gemini" (FetchOutcome.success 404 (Json.obj [("error", Json.str "")]))
        = ⟨404, errBody "API request failed"⟩ ∧
    getOwn (Json.obj [("error", Json.str "")]) "error" = some (Json.str "") ∧
    (Json.str "API request failed" : Json) ≠ Json.str "" := by
  refine ⟨rfl, rfl, ?_⟩
  simp

/-- C5 (amended): on a non-2xx upstream status the handler answers with
the upstream status and `{success:false, error:errorMessage}`, where the
parsed body's `error` field is used directly when it is *truthy* text,
a truthy non-text `error`'s `message` field is used when itself truthy
and else that `error` value serialized as text, and the generic fallback
`"API request failed"` is used when `error` is absent or falsy; a null
body instead raises on the field access and is answered as a
server error (500). -/
theorem C5_upstream_error (req : ChatReq) (status : Nat) (data : Json)
    (hst : ¬(200 ≤ status ∧ status ≤ 299))
    (hcall : (handleChat req (FetchOutcome.success status data)).2.isSome = true) :
    (∀ s, getOwn data "error" = some (Json.str s) → s ≠ "" → data.isNull = false →
        (handleChat req (FetchOutcome.success status data)).1 = ⟨status, errBody s⟩) ∧
    (∀ ev mv, getOwn data "error" = some ev → ev.truthy = true → ev.isStr = false →
        getOwn ev "message" = some mv → mv.truthy = true → data.isNull = false →
        (handleChat req (FetchOutcome.success status data)).1 = ⟨status, errBodyJ mv⟩) ∧
    (∀ ev, getOwn data "error" = some ev → ev.truthy = true → ev.isStr = false →
        optTruthy (getOwn ev "message") = false → data.isNull = false →
        (handleChat req (FetchOutcome.success status data)).1
          = ⟨status, errBody (Json.stringify ev)⟩) ∧
    (optTruthy (getOwn data "error") = false → data.isNull = false →
        (handleChat req (FetchOutcome.success status data)).1
          = ⟨status, errBody "API request failed"⟩) ∧
    (data.isNull = true →
        (handleChat req (FetchOutcome.success status data)).1
          = ⟨500, errBody "Cannot read properties of null"⟩) := by
  have hr := handleChat_after_call req (FetchOutcome.success status data) hcall
  rw [hr]
  by_cases hd : data.isNull = true
  · obtain rfl : data = Json.null := by cases data <;> simp_all [Json.isNull]
    refine ⟨?_, ?_, ?_, ?_, ?_⟩
    · intro s he
      simp [getOwn] at he
    · intro ev mv he
      simp [getOwn] at he
    · intro ev he
      simp [getOwn] at he
    · intro he hdf
      simp [Json.isNull] at hdf
    · intro _
      simp [respondPhase, hst, jsGetField, catchResult]
  · simp only [Bool.not_eq_true] at hd
    have key : respondPhase (provName req.provider) (FetchOutcome.success status data) =
        ⟨status, errBodyJ (match getOwn data "error" with
          | some ev =>
              if ev.truthy then
                match ev with
                | Json.str s => Json.str s
                | _ => jsOr (getOwn ev "message") (Json.str (Json.stringify ev))
              else Json.str "API request failed"
          | none => Json.str "API request failed")⟩ := by
      simp only [respondPhase]
      rw [if_neg hst, jsGetField_not_null data "error" hd]
    refine ⟨?_, ?_, ?_, ?_, ?_⟩
    · intro s he hs _
      rw [key, he]
      simp [Json.truthy, hs, errBody]
    · intro ev mv he het hes hm hmt _
      rw [key, he]
      cases ev with
      | str s => simp [Json.isStr] at hes
      | null => simp [Json.truthy] at het
      | bool b => simp [het, hm, jsOr, hmt]
      | num q => simp [het, hm, jsOr, hmt]
      | arr xs => simp [het, hm, jsOr, hmt]
      | obj kvs => simp [het, hm, jsOr, hmt]
    · intro ev he het hes hm _
      rw [key, he]
      have hjs := jsOr_falsy (getOwn ev "message") (Json.str (Json.stringify ev)) hm
      cases ev with
      | str s => simp [Json.isStr] at hes
      | null => simp [Json.truthy] at het
      | bool b => simp [het, hjs, errBody]
      | num q => simp [het, hjs, errBody]
      | arr xs => simp [het, hjs, errBody]
      | obj kvs => simp [het, hjs, errBody]
    · intro he _
      rw [key]
      cases hef : getOwn data "error" with
      | none => simp [errBody]
      | some ev =>
          rw [hef] at he
          simp only [optTruthy] at he
          simp [he, errBody]
    · intro hdn
      rw [hdn] at hd
      simp at hd

/-- Witness for C5: upstream 401 with body `{error:{message:"bad key"}}`
on a valid gemini request yields status 401 and error `"bad key"`. -/
theorem C5_upstream_error_witness :
    (handleChat ⟨some (Json.str "gemini"), some (Json.str "k"), none,
                 some (Json.arr [Json.obj [("role", Json.str "user"), ("content", Json.str "U")]]),
                 none⟩
       (FetchOutcome.success 401 (Json.obj [("error", Json.obj [("message", Json.str "bad key")])]))).1
      = ⟨401, errBodyJ (Json.str "bad key")⟩ :=
  (C5_upstream_error
      ⟨some (Json.str "gemini"), some (Json.str "k"), none,
       some (Json.arr [Json.obj [("role", Json.str "user"), ("content", Json.str "U")]]), none⟩
      401 (Json.obj [("error", Json.obj [("message", Json.str "bad key")])])
      (by decide) rfl).2.1
    (Json.obj [("message", Json.str "bad key")]) (Json.str "bad key") rfl rfl rfl rfl rfl rfl

/-- Every early return of the adaptation phase (validation, config,
unsupported-provider, and formatting-exception results) carries a
`{success:false, error:...}` body. -/
theorem adaptPhase_inl_shape (req : ChatReq) (r : HttpResult) (h : adaptPhase req = Sum.inl r) :
    ∃ e, r.body = errBodyJ e := by
  simp only [adaptPhase] at h
  repeat' split at h
  all_goals
    first
      | (cases h; exact ⟨_, rfl⟩)
      | cases h

/-- Every post-call response carries one of the two result shapes. -/
theorem respondPhase_shape (p : String) (o : FetchOutcome) :
    (∃ t, (respondPhase p o).body = okBody t) ∨ (∃ e, (respondPhase p o).body = errBodyJ e) := by
  unfold respondPhase
  repeat' split
  all_goals
    first
      | exact Or.inl ⟨_, rfl⟩
      | exact Or.inr ⟨_, rfl⟩

/-- C6: for every inbound request and every outcome of the outbound
call, the handler's response body is exactly one of the two ChatResult
shapes — `{success:true, response:...}` or `{success:false, error:...}` —
and an exception of the call itself (transport failure or JSON decode
failure) is caught and converted to status 500 with
`error = <exception message or "Internal server error">`, never
propagated. -/
theorem C6_uniform_result (req : ChatReq) (o : FetchOutcome) :
    ((∃ t, (handleChat req o).1.body = okBody t) ∨
     (∃ e, (handleChat req o).1.body = errBodyJ e)) ∧
    (∀ msg, o = FetchOutcome.failure msg → (handleChat req o).2.isSome = true →
        (handleChat req o).1 =
          ⟨500, errBody (if msg = "" then "Internal server error" else msg)⟩) := by
  constructor
  · cases hA : adaptPhase req with
    | inl early =>
        simp only [handleChat, hA]
        exact Or.inr (adaptPhase_inl_shape req early hA)
    | inr call =>
        simp only [handleChat, hA]
        exact respondPhase_shape (provName req.provider) o
  · intro msg hmsg hcall
    subst hmsg
    rw [handleChat_after_call req _ hcall]
    rfl

/-- Witness for C6: a transport failure on a valid request becomes a
500 with the exception message. -/
theorem C6_uniform_result_witness :
    (handleChat ⟨some (Json.str "gemini"), some (Json.str "k"), none,
                 some (Json.arr [Json.obj [("role", Json.str "user"), ("content", Json.str "U")]]),
                 none⟩ (FetchOutcome.failure "socket hang up")).1
      = ⟨500, errBody "socket hang up"⟩ :=
  (C6_uniform_result _ (FetchOutcome.failure "socket hang up")).2 "socket hang up" rfl rfl

/-- C7 counterexample: a request whose `messages` field is present but
falsy (the empty string) — by the claim it should get the
must-be-a-non-empty-array error, but the code's truthiness check fires
first and returns the missing-fields error. -/
theorem C7_counterexample :
    (⟨some (Json.str "gemini"), some (Json.str "k"), none, some (Json.str ""), none⟩ :
        ChatReq).messages ≠ none ∧
    isNonEmptyArr (some (Json.str "")) = false ∧
    handleChat ⟨some (Json.str "gemini"), some (Json.str "k"), none, some (Json.str ""), none⟩
        (FetchOutcome.success 200 Json.null)
      = (⟨400, errBody "Missing required fields: provider, apiKey, or messages"⟩, none) ∧
    errBody "Missing required fields: provider, apiKey, or messages"
      ≠ errBody "Messages must be a non-empty array" := by
  refine ⟨by simp, rfl, rfl, ?_⟩
  simp [errBody, errBodyJ]

/-- C7 (amended): if `provider`, `apiKey` or `messages` is absent — or
present but falsy, `optTruthy` being false exactly for an absent field
and for the falsy present values `null`, `false`, `0` and `""` — the
handler returns the missing-fields error with a 400 before any outbound
call; if all three are present and *truthy* but `messages` is not a
non-empty array, it returns the non-empty-array error with a 400 before
any outbound call. -/
theorem C7_validation (req : ChatReq) (o : FetchOutcome) :
    ((optTruthy req.provider = false ∨ optTruthy req.apiKey = false ∨
      optTruthy req.messages = false) →
        handleChat req o =
          (⟨400, errBody "Missing required fields: provider, apiKey, or messages"⟩, none)) ∧
    ((optTruthy req.provider = true ∧ optTruthy req.apiKey = true ∧
      optTruthy req.messages = true ∧ isNonEmptyArr req.messages = false) →
        handleChat req o = (⟨400, errBody "Messages must be a non-empty array"⟩, none)) := by
  constructor
  · intro h
    rcases h with h | h | h <;> simp [handleChat, adaptPhase, h]
  · rintro ⟨hp, hk, hm, ha⟩
    simp [handleChat, adaptPhase, hp, hk, hm, ha]

/-- Witness for C7: an `apiKey` that is present but falsy (`false`)
gets the missing-fields error, and an empty `messages` array (truthy,
but not a non-empty array) gets the non-empty-array error — both with
no outbound call. -/
theorem C7_validation_witness :
    (handleChat ⟨some (Json.str "gemini"), some (Json.bool false), none,
                 some (Json.arr [Json.obj [("role", Json.str "user"), ("content", Json.str "U")]]),
                 none⟩ (FetchOutcome.success 200 Json.null)
      = (⟨400, errBody "Missing required fields: provider, apiKey, or messages"⟩, none)) ∧
    (handleChat ⟨some (Json.str "gemini"), some (Json.str "k"), none, some (Json.arr []), none⟩
        (FetchOutcome.success 200 Json.null)
      = (⟨400, errBody "Messages must be a non-empty array"⟩, none)) :=
  ⟨(C7_validation
      ⟨some (Json.str "gemini"), some (Json.bool false), none,
       some (Json.arr [Json.obj [("role", Json.str "user"), ("content", Json.str "U")]]), none⟩
      (FetchOutcome.success 200 Json.null)).1 (Or.inr (Or.inl rfl)),
   (C7_validation ⟨some (Json.str "gemini"), some (Json.str "k"), none, some (Json.arr []), none⟩
      (FetchOutcome.success 200 Json.null)).2 ⟨rfl, rfl, rfl, rfl⟩⟩

theorem isNonEmptyArr_truthy (mo : Option Json) (h : isNonEmptyArr mo = true) :
    optTruthy mo = true := by
  cases mo with
  | none => simp [isNonEmptyArr] at h
  | some v =>
      cases v with
      | arr xs => cases xs with
          | nil => simp [isNonEmptyArr] at h
          | cons x t => rfl
      | null => simp [isNonEmptyArr] at h
      | bool b => simp [isNonEmptyArr] at h
      | num q => simp [isNonEmptyArr] at h
      | str s => simp [isNonEmptyArr] at h
      | obj kvs => simp [isNonEmptyArr] at h

theorem provIs_ne (p : Option Json) (a b : String) (ha : provIs p a = true) (hab : a ≠ b) :
    provIs p b = false := by
  cases p with
  | none => simp [provIs, strictEqStr] at ha
  | some v =>
      cases v with
      | str s =>
          have hs : s = a := by simpa [provIs, strictEqStr] using ha
          subst hs
          simp [provIs, strictEqStr, hab]
      | null => simp [provIs, strictEqStr] at ha
      | bool b2 => simp [provIs, strictEqStr] at ha
      | num q => simp [provIs, strictEqStr] at ha
      | arr xs => simp [provIs, strictEqStr] at ha
      | obj kvs => simp [provIs, strictEqStr] at ha

/-- C8 counterexample: provider `custom` with a *present* but
empty-string `customEndpoint` — adaptation still fails with the config
error, refuting "fails exactly when customEndpoint is absent". -/
theorem C8_counterexample :
    (⟨some (Json.str "custom"), some (Json.str "k"), none,
      some (Json.arr [Json.obj [("role", Json.str "user"), ("content", Json.str "U")]]),
      some (Json.str "")⟩ : ChatReq).customEndpoint ≠ none ∧
    handleChat ⟨some (Json.str "custom"), some (Json.str "k"), none,
                some (Json.arr [Json.obj [("role", Json.str "user"), ("content", Json.str "U")]]),
                some (Json.str "")⟩ (FetchOutcome.success 200 Json.null)
      = (⟨400, errBody "Custom endpoint required for custom provider"⟩, none) := by
  exact ⟨by simp, rfl⟩

/-- C8 (amended): for a request passing validation, a client-error (400)
response with no outbound call arises exactly when provider is `custom`
with an absent *or falsy* (e.g. empty-string) `customEndpoint`
(config error, with the stated message), or the provider identifier is
none of gemini/openai/anthropic/custom (unsupported-provider error
naming the provider). -/
theorem C8_adaptation_failure (req : ChatReq) (o : FetchOutcome)
    (hp : optTruthy req.provider = true) (hk : optTruthy req.apiKey = true)
    (hm : isNonEmptyArr req.messages = true) :
    (((handleChat req o).1.status = 400 ∧ (handleChat req o).2 = none) ↔
      ((provIs req.provider "custom" = true ∧ optTruthy req.customEndpoint = false) ∨
       (provIs req.provider "gemini" = false ∧ provIs req.provider "openai" = false ∧
        provIs req.provider "anthropic" = false ∧ provIs req.provider "custom" = false))) ∧
    (provIs req.provider "custom" = true → optTruthy req.customEndpoint = false →
        (handleChat req o).1 = ⟨400, errBody "Custom endpoint required for custom provider"⟩) ∧
    ((provIs req.provider "gemini" = false ∧ provIs req.provider "openai" = false ∧
      provIs req.provider "anthropic" = false ∧ provIs req.provider "custom" = false) →
        (handleChat req o).1
          = ⟨400, errBody ("Unsupported provider: " ++ jsToStringOpt req.provider)⟩) := by
  have hmt : optTruthy req.messages = true := isNonEmptyArr_truthy req.messages hm
  by_cases g1 : provIs req.provider "gemini" = true
  · have c1 : provIs req.provider "custom" = false := provIs_ne _ _ _ g1 (by decide)
    have notLHS : ¬((handleChat req o).1.status = 400 ∧ (handleChat req o).2 = none) := by
      cases hfmt : formatMessagesForProvider "gemini" (arrElems req.messages) with
      | error e =>
          have hA : adaptPhase req = Sum.inl (catchResult e) := by
            simp [adaptPhase, hp, hk, hm, hmt, g1, hfmt]
          rintro ⟨h400, -⟩
          simp [handleChat, hA, catchResult] at h400
      | ok body =>
          cases hA : adaptPhase req with
          | inl early => simp [adaptPhase, hp, hk, hm, hmt, g1, hfmt] at hA
          | inr call =>
              rintro ⟨-, hnone⟩
              simp [handleChat, hA] at hnone
    have notRHS : ¬((provIs req.provider "custom" = true ∧ optTruthy req.customEndpoint = false) ∨
        (provIs req.provider "gemini" = false ∧ provIs req.provider "openai" = false ∧
         provIs req.provider "anthropic" = false ∧ provIs req.provider "custom" = false)) := by
      rintro (⟨hc, -⟩ | ⟨hg, -, -, -⟩)
      · rw [c1] at hc; exact Bool.noConfusion hc
      · rw [g1] at hg; exact Bool.noConfusion hg
    exact ⟨iff_of_false notLHS notRHS,
           fun hc => absurd hc (by simp [c1]),
           fun hr => absurd hr.1 (by simp [g1])⟩
  by_cases g2 : provIs req.provider "openai" = true
  · have c1 : provIs req.provider "custom" = false := provIs_ne _ _ _ g2 (by decide)
    simp only [Bool.not_eq_true] at g1
    have notLHS : ¬((handleChat req o).1.status = 400 ∧ (handleChat req o).2 = none) := by
      cases hA : adaptPhase req with
      | inl early =>
          simp [adaptPhase, hp, hk, hm, hmt, g1, g2, formatMessagesForProvider] at hA
      | inr call =>
          rintro ⟨-, hnone⟩
          simp [handleChat, hA] at hnone
    have notRHS : ¬((provIs req.provider "custom" = true ∧ optTruthy req.customEndpoint = false) ∨
        (provIs req.provider "gemini" = false ∧ provIs req.provider "openai" = false ∧
         provIs req.provider "anthropic" = false ∧ provIs req.provider "custom" = false)) := by
      rintro (⟨hc, -⟩ | ⟨-, hg, -, -⟩)
      · rw [c1] at hc; exact Bool.noConfusion hc
      · rw [g2] at hg; exact Bool.noConfusion hg
    exact ⟨iff_of_false notLHS notRHS,
           fun hc => absurd hc (by simp [c1]),
           fun hr => absurd hr.2.1 (by simp [g2])⟩
  by_cases g3 : provIs req.provider "anthropic" = true
  · have c1 : provIs req.provider "custom" = false := provIs_ne _ _ _ g3 (by decide)
    simp only [Bool.not_eq_true] at g1 g2
    have notLHS : ¬((handleChat req o).1.status = 400 ∧ (handleChat req o).2 = none) := by
      cases hfmt : formatMessagesForProvider "anthropic" (arrElems req.messages) with
      | error e =>
          have hA : adaptPhase req = Sum.inl (catchResult e) := by
            simp [adaptPhase, hp, hk, hm, hmt, g1, g2, g3, hfmt]
          rintro ⟨h400, -⟩
          simp [handleChat, hA, catchResult] at h400
      | ok body =>
          cases hA : adaptPhase req with
          | inl early => simp [adaptPhase, hp, hk, hm, hmt, g1, g2, g3, hfmt] at hA
          | inr call =>
              rintro ⟨-, hnone⟩
              simp [handleChat, hA] at hnone
    have notRHS : ¬((provIs req.provider "custom" = true ∧ optTruthy req.customEndpoint = false) ∨
        (provIs req.provider "gemini" = false ∧ provIs req.provider "openai" = false ∧
         provIs req.provider "anthropic" = false ∧ provIs req.provider "custom" = false)) := by
      rintro (⟨hc, -⟩ | ⟨-, -, hg, -⟩)
      · rw [c1] at hc; exact Bool.noConfusion hc
      · rw [g3] at hg; exact Bool.noConfusion hg
    exact ⟨iff_of_false notLHS notRHS,
           fun hc => absurd hc (by simp [c1]),
           fun hr => absurd hr.2.2.1 (by simp [g3])⟩
  by_cases g4 : provIs req.provider "custom" = true
  · simp only [Bool.not_eq_true] at g1 g2 g3
    by_cases hce : optTruthy req.customEndpoint = true
    · have notLHS : ¬((handleChat req o).1.status = 400 ∧ (handleChat req o).2 = none) := by
        cases hA : adaptPhase req with
        | inl early =>
            simp [adaptPhase, hp, hk, hm, hmt, g1, g2, g3, g4, hce,
                  formatMessagesForProvider] at hA
        | inr call =>
            rintro ⟨-, hnone⟩
            simp [handleChat, hA] at hnone
      have notRHS : ¬((provIs req.provider "custom" = true ∧ optTruthy req.customEndpoint = false) ∨
          (provIs req.provider "gemini" = false ∧ provIs req.provider "openai" = false ∧
           provIs req.provider "anthropic" = false ∧ provIs req.provider "custom" = false)) := by
        rintro (⟨-, hcf⟩ | ⟨-, -, -, hg⟩)
        · rw [hce] at hcf; exact Bool.noConfusion hcf
        · rw [g4] at hg; exact Bool.noConfusion hg
      exact ⟨iff_of_false notLHS notRHS,
             fun _ hcf => absurd hcf (by simp [hce]),
             fun hr => absurd hr.2.2.2 (by simp [g4])⟩
    · have hce2 : optTruthy req.customEndpoint = false := by simpa using hce
      have hA : adaptPhase req
          = Sum.inl ⟨400, errBody "Custom endpoint required for custom provider"⟩ := by
        simp [adaptPhase, hp, hk, hm, hmt, g1, g2, g3, g4, hce2]
      refine ⟨iff_of_true ⟨by simp [handleChat, hA], by simp [handleChat, hA]⟩
                (Or.inl ⟨g4, hce2⟩),
              fun _ _ => by simp [handleChat, hA],
              fun hr => absurd hr.2.2.2 (by simp [g4])⟩
  · simp only [Bool.not_eq_true] at g1 g2 g3 g4
    have hA : adaptPhase req
        = Sum.inl ⟨400, errBody ("Unsupported provider: " ++ jsToStringOpt req.provider)⟩ := by
      simp [adaptPhase, hp, hk, hm, hmt, g1, g2, g3, g4]
    refine ⟨iff_of_true ⟨by simp [handleChat, hA], by simp [handleChat, hA]⟩
              (Or.inr ⟨g1, g2, g3, g4⟩),
            fun hc => absurd hc (by simp [g4]),
            fun _ => by simp [handleChat, hA]⟩

/-- Witness for C8: provider `custom` with `customEndpoint` absent gets
the config error. -/
theorem C8_adaptation_failure_witness :
    (handleChat ⟨some (Json.str "custom"), some (Json.str "k"), none,
                 some (Json.arr [Json.obj [("role", Json.str "user"), ("content", Json.str "U")]]),
                 none⟩ (FetchOutcome.success 200 Json.null)).1
      = ⟨400, errBody "Custom endpoint required for custom provider"⟩ :=
  (C8_adaptation_failure
      ⟨some (Json.str "custom"), some (Json.str "k"), none,
       some (Json.arr [Json.obj [("role", Json.str "user"), ("content", Json.str "U")]]), none⟩
      (FetchOutcome.success 200 Json.null) rfl rfl rfl).2.1 rfl rfl
